import Mathlib

/-!
Verification development for the lunch-menu polling system
(`lunch_menu.py` and `lunch_menu_playwright.py`).

The two Python files share identical date-resolution logic (`parse_date`,
`is_today`, and the date-resolution part of `scrape_menu`); the retry loop
exists only in `lunch_menu_playwright.py` (`main`).  The definitions below
are shallow embeddings of those functions.  External collaborators (page
fetch, HTML selectors, image download, OCR engine, SMTP) are treated as
black boxes: their outcomes are inputs to the embedded functions, exactly
at the points where the Python code consumes their return values.

Modelling conventions:
* `datetime(y, m, d)` is embedded as `mkDate`, returning `none` where the
  Python constructor raises `ValueError` (proleptic Gregorian calendar,
  years 1..9999).
* Regular-expression searches are embedded as dedicated matchers for the
  four concrete patterns in `parse_date`, with `re.search`'s leftmost-match
  semantics (`searchIn` tries every start position left to right).  `\d`
  and `\s` are modelled over ASCII digits and ASCII whitespace; the exotic
  Unicode digit/space classes play no role in the properties checked here.
* `datetime.now()` is threaded through as explicit parameters (`nowYear`
  for the year used by the month-day patterns, `today` for the current
  local date used by `is_today`).
-/

/-- A calendar date (no time component), the embedding of a
`datetime` value as consumed by the date logic. -/
structure Date where
  year : Nat
  month : Nat
  day : Nat
deriving DecidableEq, Repr

/-- Proleptic Gregorian leap-year rule, as used by Python `datetime`. -/
def isLeap (y : Nat) : Bool :=
  y % 4 == 0 && (y % 100 != 0 || y % 400 == 0)

/-- Number of days in a month, as validated by the `datetime` constructor. -/
def monthDays (y m : Nat) : Nat :=
  if m = 2 then (if isLeap y then 29 else 28)
  else if m = 4 ∨ m = 6 ∨ m = 9 ∨ m = 11 then 30
  else 31

/-- Embedding of the `datetime(year, month, day)` constructor:
`some` on a calendar-valid date, `none` where Python raises `ValueError`
(year outside 1..9999, month outside 1..12, day outside the month). -/
def mkDate (y m d : Nat) : Option Date :=
  if 1 ≤ y ∧ y ≤ 9999 ∧ 1 ≤ m ∧ m ≤ 12 ∧ 1 ≤ d ∧ d ≤ monthDays y m then
    some ⟨y, m, d⟩
  else none

/-- ASCII digit class, the model of the regex class `\d`. -/
def isDigitC (c : Char) : Bool := c.isDigit

/-- ASCII whitespace class, the model of the regex class `\s`. -/
def isSpaceC (c : Char) : Bool :=
  c == ' ' || c == '\t' || c == '\n' || c == '\r' || c.toNat == 11 || c.toNat == 12

/-- Numeric value of a digit character. -/
def digitVal (c : Char) : Nat := c.toNat - 48

/-- Consume a maximal run of whitespace: the match of `\s*` when the
following regex element is `\d` (whitespace and digits are disjoint, so
the maximal munch is the only viable choice). -/
def dropSpaces : List Char → List Char
  | c :: cs => if isSpaceC c then dropSpaces cs else c :: cs
  | [] => []

/-- Match `\d{4}` at the current position: exactly four digits, returning
their value and the remaining input. -/
def exact4 : List Char → Option (Nat × List Char)
  | a :: b :: c :: d :: rest =>
    if isDigitC a && isDigitC b && isDigitC c && isDigitC d then
      some (1000 * digitVal a + 100 * digitVal b + 10 * digitVal c + digitVal d, rest)
    else none
  | _ => none

/-- Match `\d{1,2}` immediately followed by the literal `lit`, with the
regex engine's greedy backtracking (two digits tried before one).  Since
`lit` is never a digit in the patterns used, at most one alternative can
succeed. -/
def digits12Lit (lit : Char) : List Char → Option (Nat × List Char)
  | a :: b :: c :: rest =>
    if isDigitC a && isDigitC b && c == lit then
      some (10 * digitVal a + digitVal b, rest)
    else if isDigitC a && b == lit then
      some (digitVal a, c :: rest)
    else none
  | [a, b] =>
    if isDigitC a && b == lit then some (digitVal a, []) else none
  | _ => none

/-- Match `\d{1,2}` at the end of a pattern: greedy, at least one digit,
no continuation to satisfy. -/
def digits12End : List Char → Option Nat
  | a :: b :: _ =>
    if isDigitC a && isDigitC b then some (10 * digitVal a + digitVal b)
    else if isDigitC a then some (digitVal a)
    else none
  | [a] => if isDigitC a then some (digitVal a) else none
  | [] => none

/-- Match the full-date pattern `(\d{4})년\s*(\d{1,2})월\s*(\d{1,2})일`
at the current position, returning the (year, month, day) groups. -/
def matchP1At (s : List Char) : Option (Nat × Nat × Nat) :=
  match exact4 s with
  | none => none
  | some (y, rest) =>
    match rest with
    | '년' :: r2 =>
      match digits12Lit '월' (dropSpaces r2) with
      | none => none
      | some (m, r4) =>
        match digits12Lit '일' (dropSpaces r4) with
        | none => none
        | some (d, _) => some (y, m, d)
    | _ => none

/-- Match the month-day pattern `(\d{1,2})월\s*(\d{1,2})일` at the current
position. -/
def matchP2At (s : List Char) : Option (Nat × Nat) :=
  match digits12Lit '월' s with
  | none => none
  | some (m, rest) =>
    match digits12Lit '일' (dropSpaces rest) with
    | none => none
    | some (d, _) => some (m, d)

/-- Match the dotted pattern `(\d{1,2})\.(\d{1,2})` at the current
position. -/
def matchP3At (s : List Char) : Option (Nat × Nat) :=
  match digits12Lit '.' s with
  | none => none
  | some (m, rest) =>
    match digits12End rest with
    | none => none
    | some d => some (m, d)

/-- Match the slashed pattern `(\d{1,2})/(\d{1,2})` at the current
position. -/
def matchP4At (s : List Char) : Option (Nat × Nat) :=
  match digits12Lit '/' s with
  | none => none
  | some (m, rest) =>
    match digits12End rest with
    | none => none
    | some d => some (m, d)

/-- `re.search` semantics: try the matcher at every start position, left
to right (the end-of-string position included), and return the first
success. -/
def searchIn {α : Type} (m : List Char → Option α) : List Char → Option α
  | [] => m []
  | c :: cs =>
    match m (c :: cs) with
    | some r => some r
    | none => searchIn m cs

/-- Leftmost match of the full-date pattern in the text. -/
def searchP1 (s : List Char) : Option (Nat × Nat × Nat) := searchIn matchP1At s

/-- Leftmost match of the month-day pattern in the text. -/
def searchP2 (s : List Char) : Option (Nat × Nat) := searchIn matchP2At s

/-- Leftmost match of the dotted pattern in the text. -/
def searchP3 (s : List Char) : Option (Nat × Nat) := searchIn matchP3At s

/-- Leftmost match of the slashed pattern in the text. -/
def searchP4 (s : List Char) : Option (Nat × Nat) := searchIn matchP4At s

/-- The tail of `parse_date`'s pattern loop starting at the slashed
pattern: search, construct with the current year, drop the match on
`ValueError`. -/
def parseFrom4 (s : List Char) (nowYear : Nat) : Option Date :=
  match searchP4 s with
  | some (m, d) =>
    match mkDate nowYear m d with
    | some D => some D
    | none => none
  | none => none

/-- The tail of `parse_date`'s pattern loop starting at the dotted
pattern. -/
def parseFrom34 (s : List Char) (nowYear : Nat) : Option Date :=
  match searchP3 s with
  | some (m, d) =>
    match mkDate nowYear m d with
    | some D => some D
    | none => parseFrom4 s nowYear
  | none => parseFrom4 s nowYear

/-- The tail of `parse_date`'s pattern loop starting at the month-day
pattern. -/
def parseFrom234 (s : List Char) (nowYear : Nat) : Option Date :=
  match searchP2 s with
  | some (m, d) =>
    match mkDate nowYear m d with
    | some D => some D
    | none => parseFrom34 s nowYear
  | none => parseFrom34 s nowYear

/-- Embedding of `MenuScraper.parse_date` (identical in both source
files): try the four patterns in priority order; for each, take the
leftmost match of that pattern in the text, build a `datetime` (the
month-day, dotted and slashed patterns default the year to the current
year), and on `ValueError` fall through to the next pattern.  Returns
`none` when no pattern produces a valid date. -/
def parse_date (text : String) (nowYear : Nat) : Option Date :=
  match searchP1 text.toList with
  | some (y, m, d) =>
    match mkDate y m d with
    | some D => some D
    | none => parseFrom234 text.toList nowYear
  | none => parseFrom234 text.toList nowYear

/-- Embedding of `MenuScraper.is_today`: `False` on a missing date,
otherwise equality with the current local calendar date. -/
def is_today (date : Option Date) (today : Date) : Bool :=
  match date with
  | none => false
  | some d => decide (d = today)

/-- Embedding of the `Restaurant` configuration class. -/
structure Restaurant where
  name : String
  url : String
  channel_id : String
  date_in_post : Bool
deriving DecidableEq, Repr

/-- First configured restaurant (date expected in the post title). -/
def rest1 : Restaurant :=
  ⟨"왕의밥상", "https://pf.kakao.com/_kSxlln/posts", "_kSxlln", true⟩

/-- Second configured restaurant (date expected in the post title). -/
def rest2 : Restaurant :=
  ⟨"착한한식뷔페", "https://pf.kakao.com/_xgPnnn/posts", "_xgPnnn", true⟩

/-- Third configured restaurant (date read from the image only). -/
def rest3 : Restaurant :=
  ⟨"원테이블", "https://pf.kakao.com/_gVFMn", "_gVFMn", false⟩

/-- The fixed restaurant list from `main`. -/
def restaurants : List Restaurant := [rest1, rest2, rest3]

/-- Embedding of the result dict built at the end of `scrape_menu`.  The
resolved date is kept as `Option Date` (the source formats it to a display
string at this point); the PIL image handle is outside the model. -/
structure MenuRecord where
  restaurant : String
  date : Option Date
  is_today : Bool
  menu_text : String
  image_url : String
deriving DecidableEq, Repr

/-- Outcomes of the external collaborators for one restaurant on one
attempt, consumed by `scrape_menu` exactly where the Python code reads
the corresponding return values.  `ocrRead = none` models
`reader.readtext` raising (the except-branch of
`extract_text_from_image`); `html`/`imageUrl` are `none` on a failed
fetch or a missing selector, and `imageOk = false` on a failed image
download. -/
structure ScrapeEnv where
  html : Option String
  imageUrl : Option String
  imageOk : Bool
  postTitle : Option String
  ocrRead : Option String
deriving DecidableEq, Repr

/-- Python truthiness of an optional string (`if not x` fails for both
`None` and the empty string). -/
def truthy : Option String → Bool
  | none => false
  | some s => !(s == "")

/-- Embedding of `extract_text_from_image`: an OCR read failure is caught
and yields the empty string. -/
def extract_text_from_image (ocrRead : Option String) : String :=
  match ocrRead with
  | some t => t
  | none => ""

/-- Embedding of steps 4-5 of `scrape_menu` (date resolution): when
`date_in_post` is set, a truthy post title is parsed first; the OCR text
is parsed when `date_in_post` is off or the title produced no date. -/
def resolveMenuDate (dateInPost : Bool) (postTitle : Option String)
    (ocrText : String) (nowYear : Nat) : Option Date :=
  let menuDate : Option Date :=
    if dateInPost then
      match postTitle with
      | some t => if t == "" then none else parse_date t nowYear
      | none => none
    else none
  if !dateInPost || menuDate.isNone then parse_date ocrText nowYear else menuDate

/-- Embedding of `MenuScraper.scrape_menu`: early-return `None` on a
failed page fetch, a missing image URL, or a failed image download;
otherwise assemble the record from the OCR text and the resolved date. -/
def scrape_menu (r : Restaurant) (env : ScrapeEnv) (nowYear : Nat)
    (today : Date) : Option MenuRecord :=
  if !truthy env.html then none
  else if !truthy env.imageUrl then none
  else if !env.imageOk then none
  else
    let ocrText := extract_text_from_image env.ocrRead
    let menuDate := resolveMenuDate r.date_in_post env.postTitle ocrText nowYear
    some { restaurant := r.name
         , date := menuDate
         , is_today := is_today menuDate today
         , menu_text := ocrText
         , image_url := env.imageUrl.getD "" }

/-- One pass of the per-restaurant loop inside an attempt of `main`:
each restaurant is scraped with its own collaborator outcomes, and only
the produced records are appended (`if result: results.append(result)`). -/
def runAttempt (rs : List Restaurant) (envs : List ScrapeEnv) (nowYear : Nat)
    (today : Date) : List MenuRecord :=
  ((rs.zip envs).map (fun p => scrape_menu p.1 p.2 nowYear today)).filterMap id

/-- Observable outcome of one run of the retry loop in
`lunch_menu_playwright.main`: number of loop iterations executed, number
of inter-attempt sleeps, whether the run ended through the today-menu
branch, and the payload of `send_menu_notification` (`none` when no
notification was sent). -/
structure RunResult where
  attempts : Nat
  sleeps : Nat
  success : Bool
  sent : Option (List MenuRecord)
deriving DecidableEq, Repr

/-- The records appended during attempt `a`, given the per-attempt
per-restaurant scrape outcomes. -/
def attemptRecords (outcomes : Nat → List (Option MenuRecord)) (a : Nat) :
    List MenuRecord :=
  (outcomes a).filterMap id

/-- `if today_menus:` — some produced record carries `is_today = True`. -/
def hasToday (rs : List MenuRecord) : Bool := rs.any (fun r => r.is_today)

/-- The body of the retry loop of `lunch_menu_playwright.main`, with the
remaining number of loop iterations as structural fuel
(`rem = maxRetries + 1 - attempt` at every reachable call).  Each
iteration rebuilds `results` from scratch from this attempt's outcomes;
on a today menu it notifies with this attempt's records and stops; on the
last attempt it notifies exactly when this attempt produced any record;
otherwise it sleeps and retries. -/
def pollAux (outcomes : Nat → List (Option MenuRecord)) (maxRetries : Nat) :
    Nat → Nat → RunResult
  | _, 0 => ⟨0, 0, false, none⟩
  | attempt, rem + 1 =>
    let results := attemptRecords outcomes attempt
    if hasToday results then
      ⟨1, 0, true, some results⟩
    else if attempt < maxRetries then
      let r := pollAux outcomes maxRetries (attempt + 1) rem
      ⟨r.attempts + 1, r.sleeps + 1, r.success, r.sent⟩
    else
      ⟨1, 0, false, if results.isEmpty then none else some results⟩

/-- The retry loop `for attempt in range(1, MAX_RETRIES + 1)` of
`lunch_menu_playwright.main`. -/
def runPolling (maxRetries : Nat) (outcomes : Nat → List (Option MenuRecord)) :
    RunResult :=
  pollAux outcomes maxRetries 1 maxRetries

/-- `MAX_RETRIES` from `lunch_menu_playwright.main`. -/
def MAX_RETRIES : Nat := 6

/-- `RETRY_INTERVAL` (seconds) from `lunch_menu_playwright.main`. -/
def RETRY_INTERVAL : Nat := 15 * 60

/-! ### Helper lemmas -/

lemma mkDate_year {y m d : Nat} {D : Date} (h : mkDate y m d = some D) :
    D = ⟨y, m, d⟩ := by
  unfold mkDate at h
  split at h
  · exact (Option.some.inj h).symm
  · exact absurd h (by simp)

lemma parseFrom4_year {s : List Char} {now : Nat} {D : Date}
    (h : parseFrom4 s now = some D) : D.year = now := by
  unfold parseFrom4 at h
  split at h
  · rename_i m d heq
    split at h
    · rename_i D' hmk
      cases h
      rw [mkDate_year hmk]
    · exact absurd h (by simp)
  · exact absurd h (by simp)

lemma parseFrom34_year {s : List Char} {now : Nat} {D : Date}
    (h : parseFrom34 s now = some D) : D.year = now := by
  unfold parseFrom34 at h
  split at h
  · rename_i m d heq
    split at h
    · rename_i D' hmk
      cases h
      rw [mkDate_year hmk]
    · exact parseFrom4_year h
  · exact parseFrom4_year h

lemma parseFrom234_year {s : List Char} {now : Nat} {D : Date}
    (h : parseFrom234 s now = some D) : D.year = now := by
  unfold parseFrom234 at h
  split at h
  · rename_i m d heq
    split at h
    · rename_i D' hmk
      cases h
      rw [mkDate_year hmk]
    · exact parseFrom34_year h
  · exact parseFrom34_year h

lemma parse_date_of_search1_valid {t : String} {now y m d : Nat} {D : Date}
    (h : searchP1 t.toList = some (y, m, d)) (hmk : mkDate y m d = some D) :
    parse_date t now = some D := by
  unfold parse_date
  simp only [h, hmk]

lemma parse_date_of_search1_invalid {t : String} {now y m d : Nat}
    (h : searchP1 t.toList = some (y, m, d)) (hmk : mkDate y m d = none) :
    parse_date t now = parseFrom234 t.toList now := by
  unfold parse_date
  simp only [h, hmk]

lemma parse_date_of_search1_none {t : String} {now : Nat}
    (h : searchP1 t.toList = none) :
    parse_date t now = parseFrom234 t.toList now := by
  unfold parse_date
  rw [h]

lemma parseFrom234_of_invalid {s : List Char} {now m d : Nat}
    (h : searchP2 s = some (m, d)) (hmk : mkDate now m d = none) :
    parseFrom234 s now = parseFrom34 s now := by
  unfold parseFrom234
  simp only [h, hmk]

lemma parseFrom234_of_none {s : List Char} {now : Nat}
    (h : searchP2 s = none) : parseFrom234 s now = parseFrom34 s now := by
  unfold parseFrom234
  rw [h]

lemma parseFrom34_of_invalid {s : List Char} {now m d : Nat}
    (h : searchP3 s = some (m, d)) (hmk : mkDate now m d = none) :
    parseFrom34 s now = parseFrom4 s now := by
  unfold parseFrom34
  simp only [h, hmk]

lemma parseFrom34_of_none {s : List Char} {now : Nat}
    (h : searchP3 s = none) : parseFrom34 s now = parseFrom4 s now := by
  unfold parseFrom34
  rw [h]

lemma parseFrom4_of_none {s : List Char} {now : Nat}
    (h : searchP4 s = none) : parseFrom4 s now = none := by
  unfold parseFrom4
  rw [h]

lemma parseFrom4_of_invalid {s : List Char} {now m d : Nat}
    (h : searchP4 s = some (m, d)) (hmk : mkDate now m d = none) :
    parseFrom4 s now = none := by
  unfold parseFrom4
  simp only [h, hmk]

/-- With no match of any pattern, `parse_date` returns `none`. -/
lemma parse_date_none_of_no_match {t : String} {now : Nat}
    (h1 : searchP1 t.toList = none) (h2 : searchP2 t.toList = none)
    (h3 : searchP3 t.toList = none) (h4 : searchP4 t.toList = none) :
    parse_date t now = none := by
  rw [parse_date_of_search1_none h1, parseFrom234_of_none h2,
    parseFrom34_of_none h3, parseFrom4_of_none h4]

/-- Characterization of the retry loop when attempt `k` is the first
attempt (at or after `attempt`) whose produced records contain a today
menu: the loop runs `k - attempt + 1` iterations, sleeps after each of
the failed ones, and notifies with exactly attempt `k`'s records. -/
lemma pollAux_success (outcomes : Nat → List (Option MenuRecord))
    (maxRetries : Nat) :
    ∀ rem attempt k, attempt + rem = maxRetries + 1 → attempt ≤ k →
      k ≤ maxRetries →
      hasToday (attemptRecords outcomes k) = true →
      (∀ j, attempt ≤ j → j < k → hasToday (attemptRecords outcomes j) = false) →
      pollAux outcomes maxRetries attempt rem =
        ⟨k - attempt + 1, k - attempt, true, some (attemptRecords outcomes k)⟩ := by
  intro rem
  induction rem with
  | zero =>
    intro attempt k h1 h2 h3 _ _
    omega
  | succ rem ih =>
    intro attempt k h1 h2 h3 hk hprev
    by_cases hak : attempt = k
    · subst hak
      simp only [pollAux, hk, if_true]
      simp [Nat.sub_self]
    · have hlt : attempt < k := Nat.lt_of_le_of_ne h2 hak
      have hfa : hasToday (attemptRecords outcomes attempt) = false :=
        hprev attempt le_rfl hlt
      have hmax : attempt < maxRetries := by omega
      simp only [pollAux, hfa, Bool.false_eq_true, if_false, hmax, if_true]
      rw [ih (attempt + 1) k (by omega) (by omega) h3 hk
        (fun j hj hjk => hprev j (by omega) hjk)]
      simp only [RunResult.mk.injEq]
      exact ⟨by omega, by omega, by trivial, by trivial⟩

/-- Characterization of the retry loop when no attempt in range ever
produces a today menu: the loop runs to `maxRetries`, and notifies with
the final attempt's records exactly when that attempt produced any. -/
lemma pollAux_exhaust (outcomes : Nat → List (Option MenuRecord))
    (maxRetries : Nat) :
    ∀ rem attempt, attempt + rem = maxRetries + 1 → attempt ≤ maxRetries →
      (∀ j, attempt ≤ j → j ≤ maxRetries →
        hasToday (attemptRecords outcomes j) = false) →
      pollAux outcomes maxRetries attempt rem =
        ⟨maxRetries - attempt + 1, maxRetries - attempt, false,
         if (attemptRecords outcomes maxRetries).isEmpty then none
         else some (attemptRecords outcomes maxRetries)⟩ := by
  intro rem
  induction rem with
  | zero =>
    intro attempt h1 h2 _
    omega
  | succ rem ih =>
    intro attempt h1 h2 hall
    have hfa : hasToday (attemptRecords outcomes attempt) = false :=
      hall attempt le_rfl h2
    by_cases hm : attempt = maxRetries
    · subst hm
      simp only [pollAux, hfa, Bool.false_eq_true, if_false, Nat.lt_irrefl]
      simp [Nat.sub_self]
    · have hmax : attempt < maxRetries := by omega
      simp only [pollAux, hfa, Bool.false_eq_true, if_false, hmax, if_true]
      rw [ih (attempt + 1) (by omega) (by omega)
        (fun j hj hjk => hall j (by omega) hjk)]
      simp only [RunResult.mk.injEq]
      exact ⟨by omega, by omega, by trivial, by trivial⟩

/-! ### Concrete runs used as inputs to counterexamples and witnesses -/

/-- A record carrying a today menu. -/
def recToday : MenuRecord :=
  ⟨"왕의밥상", some ⟨2026, 2, 5⟩, true, "menu text", "urlA"⟩

/-- A record carrying a stale (not-today) menu. -/
def recStale : MenuRecord :=
  ⟨"원테이블", some ⟨2026, 2, 4⟩, false, "menu text", "urlB"⟩

/-- Two-restaurant run: attempt 1 produces a stale record for the first
restaurant and a skip for the second; later attempts produce a skip for
the first and a today record for the second. -/
def c1Outs : Nat → List (Option MenuRecord) :=
  fun a => if a = 1 then [some recStale, none] else [none, some recToday]

/-- Run with a today record first appearing on attempt 2. -/
def c2Outs : Nat → List (Option MenuRecord) :=
  fun a => if a = 2 then [some recToday] else [some recStale]

/-- Run producing one stale record on attempt 1 and nothing afterwards. -/
def c3Outs : Nat → List (Option MenuRecord) :=
  fun a => if a = 1 then [some recStale] else [none]

/-- Run producing the same stale record on every attempt. -/
def c3WOuts : Nat → List (Option MenuRecord) :=
  fun _ => [some recStale]

/-! ### C1 -/

/-- C1 counterexample: the loop keeps no records across attempts.  In
`c1Outs`, attempt 1 produces a (stale) record for the first restaurant,
which then fails on attempt 2; the run reaches Success on attempt 2, yet
the notification payload is only attempt 2's record — the claimed
aggregation (keep-previous-on-skip, notify including earlier stale
records) does not happen. -/
theorem c1_counterexample :
    attemptRecords c1Outs 1 = [recStale] ∧
    (runPolling 2 c1Outs).success = true ∧
    (runPolling 2 c1Outs).sent = some [recToday] ∧
    recStale ∉ [recToday] := by decide

/-- C1 (amended): after each attempt the controller's record set is
exactly the records produced in that attempt — records from earlier
attempts are discarded, and a restaurant that fails the current attempt
has no record even if an earlier attempt produced one; on the transition
to Success the notification is sent with exactly the current attempt's
records. -/
theorem c1_sends_current_attempt_records (outcomes : Nat → List (Option MenuRecord))
    (maxRetries k : Nat) (h1 : 1 ≤ k) (h2 : k ≤ maxRetries)
    (h3 : hasToday (attemptRecords outcomes k) = true)
    (h4 : ∀ j, 1 ≤ j → j < k → hasToday (attemptRecords outcomes j) = false) :
    (runPolling maxRetries outcomes).sent = some (attemptRecords outcomes k) := by
  unfold runPolling
  rw [pollAux_success outcomes maxRetries maxRetries 1 k (by omega) h1 h2 h3 h4]

/-- C1 witness: the amended statement at the concrete run `c1Outs`. -/
theorem c1_witness : (runPolling 2 c1Outs).sent = some [recToday] := by
  rw [c1_sends_current_attempt_records c1Outs 2 2 (by omega) (by omega) (by decide)
    (fun j hj1 hj2 => by
      have hj : j = 1 := by omega
      subst hj
      decide)]
  decide

/-! ### C2 -/

/-- C2: the controller reaches the terminal Success state on the first
attempt `k` whose produced records contain a today menu: it performs
exactly `k` attempts (none after), sleeps only after the `k - 1` failed
attempts (none after the successful one), and sends the notification with
that attempt's records. -/
theorem c2_success_on_first_today (outcomes : Nat → List (Option MenuRecord))
    (maxRetries k : Nat) (h1 : 1 ≤ k) (h2 : k ≤ maxRetries)
    (h3 : hasToday (attemptRecords outcomes k) = true)
    (h4 : ∀ j, 1 ≤ j → j < k → hasToday (attemptRecords outcomes j) = false) :
    runPolling maxRetries outcomes =
      ⟨k, k - 1, true, some (attemptRecords outcomes k)⟩ := by
  unfold runPolling
  rw [pollAux_success outcomes maxRetries maxRetries 1 k (by omega) h1 h2 h3 h4]
  have e1 : k - 1 + 1 = k := by omega
  rw [e1]

/-- C2 witness: with a today menu first appearing on attempt 2 of 3, the
run stops after 2 attempts and 1 sleep and notifies with attempt 2's
records. -/
theorem c2_witness : runPolling 3 c2Outs = ⟨2, 1, true, some [recToday]⟩ := by
  rw [c2_success_on_first_today c2Outs 3 2 (by omega) (by omega) (by decide)
    (fun j hj1 hj2 => by
      have hj : j = 1 := by omega
      subst hj
      decide)]
  decide

/-! ### C3 -/

/-- C3 counterexample: with `maxRetries = 2`, attempt 1 produces a stale
record but the final attempt produces none; the claim requires a
notification (the aggregated set is non-empty), yet the run ends with no
notification because only the final attempt's records are consulted. -/
theorem c3_counterexample :
    attemptRecords c3Outs 1 = [recStale] ∧
    (runPolling 2 c3Outs).attempts = 2 ∧
    (runPolling 2 c3Outs).success = false ∧
    (runPolling 2 c3Outs).sent = none := by decide

/-- C3 (amended): when no attempt ever yields a today record, the
controller performs exactly `maxRetries` attempts and reaches the
terminal Exhausted state; a notification is sent if and only if the final
attempt produced at least one record (records from earlier attempts are
discarded), and with zero records in the final attempt no notification is
sent. -/
theorem c3_exhausted_after_max (outcomes : Nat → List (Option MenuRecord))
    (maxRetries : Nat) (h0 : 1 ≤ maxRetries)
    (hall : ∀ j, 1 ≤ j → j ≤ maxRetries →
      hasToday (attemptRecords outcomes j) = false) :
    runPolling maxRetries outcomes =
      ⟨maxRetries, maxRetries - 1, false,
       if (attemptRecords outcomes maxRetries).isEmpty then none
       else some (attemptRecords outcomes maxRetries)⟩ := by
  unfold runPolling
  rw [pollAux_exhaust outcomes maxRetries maxRetries 1 (by omega) h0 hall]
  have e1 : maxRetries - 1 + 1 = maxRetries := by omega
  rw [e1]

/-- C3 witness: a run whose attempts all produce only a stale record ends
Exhausted after both attempts and notifies with the final attempt's
record. -/
theorem c3_witness : runPolling 2 c3WOuts = ⟨2, 1, false, some [recStale]⟩ := by
  rw [c3_exhausted_after_max c3WOuts 2 (by omega) (fun j _ _ => rfl)]
  decide

/-! ### C4 -/

/-- C4: date-source resolution order.  With `date_in_post` off, the date
comes from the OCR text alone whatever the post title holds; with
`date_in_post` on, a truthy post title is tried first, the OCR text is
consulted exactly when the title is absent (or empty) or yields no date,
and resolution stops at the first non-absent result (the OCR text plays
no role in that case, for every OCR text). -/
theorem c4_source_resolution_order (pt : Option String) (ocr : String) (now : Nat) :
    resolveMenuDate false pt ocr now = parse_date ocr now ∧
    (pt = none → resolveMenuDate true pt ocr now = parse_date ocr now) ∧
    (∀ t, pt = some t → t = "" → resolveMenuDate true pt ocr now = parse_date ocr now) ∧
    (∀ t, pt = some t → t ≠ "" → parse_date t now = none →
      resolveMenuDate true pt ocr now = parse_date ocr now) ∧
    (∀ t D, pt = some t → t ≠ "" → parse_date t now = some D →
      resolveMenuDate true pt ocr now = some D) := by
  refine ⟨?_, ?_, ?_, ?_, ?_⟩
  · simp [resolveMenuDate]
  · intro h
    subst h
    simp [resolveMenuDate]
  · intro t h he
    subst h
    subst he
    simp [resolveMenuDate]
  · intro t h hne hparse
    subst h
    simp [resolveMenuDate, hne, hparse]
  · intro t D h hne hparse
    subst h
    simp [resolveMenuDate, hne, hparse]

/-- C4 witness: a resolving post title wins independently of the OCR
text; with `date_in_post` off the same title is ignored. -/
theorem c4_witness :
    resolveMenuDate true (some "2월 5일") "3월 6일" 2025 = some ⟨2025, 2, 5⟩ ∧
    resolveMenuDate false (some "2월 5일") "3월 6일" 2025 = parse_date "3월 6일" 2025 := by
  constructor
  · exact (c4_source_resolution_order (some "2월 5일") "3월 6일" 2025).2.2.2.2
      "2월 5일" ⟨2025, 2, 5⟩ rfl (by decide) (by decide)
  · exact (c4_source_resolution_order (some "2월 5일") "3월 6일" 2025).1

/-! ### C5 -/

/-- C5 counterexample: the text contains the calendar-valid full date
`2026년 2월 3일` (a full-date match exists at offset 12), yet `parse_date`
returns the current-year date `2025-01-01`: the leftmost full-date match
(`0000년 1월 1일`) fails validation, so the full-date pattern is
abandoned and the month-day pattern wins on an earlier fragment —
surrounding text does matter. -/
theorem c5_counterexample :
    matchP1At ((String.toList "0000년 1월 1일 2026년 2월 3일").drop 12) =
      some (2026, 2, 3) ∧
    mkDate 2026 2 3 = some ⟨2026, 2, 3⟩ ∧
    parse_date "0000년 1월 1일 2026년 2월 3일" 2025 = some ⟨2025, 1, 1⟩ := by decide

/-- C5 (amended): when the leftmost full-date match in the text is
calendar-valid, `parse_date` returns exactly that date regardless of
surrounding text; and when the full-date pattern has no match at all, any
returned date's year is the current year at resolution time (the
month-day, dotted and slashed patterns, tried in that fixed order, all
default the year). -/
theorem c5_full_date_and_current_year (t : String) (now : Nat) :
    (∀ y m d D, searchP1 t.toList = some (y, m, d) → mkDate y m d = some D →
      parse_date t now = some D) ∧
    (∀ D, searchP1 t.toList = none → parse_date t now = some D → D.year = now) := by
  constructor
  · intro y m d D h hmk
    exact parse_date_of_search1_valid h hmk
  · intro D h hp
    rw [parse_date_of_search1_none h] at hp
    exact parseFrom234_year hp

/-- C5 witness: a valid full date embedded in surrounding text resolves
to itself, and a month-day-only text gets the current year. -/
theorem c5_witness :
    parse_date "메뉴 2026년 2월 3일" 2025 = some ⟨2026, 2, 3⟩ ∧
    (⟨2025, 2, 5⟩ : Date).year = 2025 := by
  constructor
  · exact (c5_full_date_and_current_year "메뉴 2026년 2월 3일" 2025).1
      2026 2 3 ⟨2026, 2, 3⟩ (by decide) (by decide)
  · exact (c5_full_date_and_current_year "2월 5일" 2025).2
      ⟨2025, 2, 5⟩ (by decide) (by decide)

/-! ### C6 -/

/-- C6: `is_today` is true exactly when the resolved date is present and
equals the current local date; an absent date yields false (never an
error — the function is total), and any other date, in particular one a
day off, yields false. -/
theorem c6_is_today_iff (date : Option Date) (today : Date) :
    (is_today date today = true ↔ ∃ d, date = some d ∧ d = today) ∧
    is_today none today = false ∧
    (∀ d, d ≠ today → is_today (some d) today = false) := by
  refine ⟨?_, rfl, ?_⟩
  · cases date with
    | none => simp [is_today]
    | some d => simp [is_today]
  · intro d hne
    simp [is_today, hne]

/-- C6 witness: with current date 2026-02-05, yesterday and tomorrow give
false and the exact date gives true. -/
theorem c6_witness :
    is_today (some ⟨2026, 2, 4⟩) ⟨2026, 2, 5⟩ = false ∧
    is_today (some ⟨2026, 2, 6⟩) ⟨2026, 2, 5⟩ = false ∧
    is_today (some ⟨2026, 2, 5⟩) ⟨2026, 2, 5⟩ = true := by
  refine ⟨?_, ?_, ?_⟩
  · exact (c6_is_today_iff (some ⟨2026, 2, 4⟩) ⟨2026, 2, 5⟩).2.2 ⟨2026, 2, 4⟩ (by decide)
  · exact (c6_is_today_iff (some ⟨2026, 2, 6⟩) ⟨2026, 2, 5⟩).2.2 ⟨2026, 2, 6⟩ (by decide)
  · exact (c6_is_today_iff (some ⟨2026, 2, 5⟩) ⟨2026, 2, 5⟩).1.mpr ⟨⟨2026, 2, 5⟩, rfl, rfl⟩

/-! ### C7 -/

/-- Collaborator outcomes where everything up to OCR succeeds and the OCR
read raises. -/
def c7Env : ScrapeEnv :=
  ⟨some "<html>", some "img-url", true, some "2월 5일", none⟩

/-- C7 counterexample: the OCR step fails (`ocrRead = none`, the raising
branch of `readtext`), yet `scrape_menu` still produces a record — the
exception is caught inside `extract_text_from_image` and recovered as
empty text, so an OCR failure is not a skip. -/
theorem c7_counterexample :
    c7Env.ocrRead = none ∧
    scrape_menu rest1 c7Env 2025 ⟨2025, 2, 5⟩ =
      some ⟨"왕의밥상", some ⟨2025, 2, 5⟩, true, "", "img-url"⟩ := by decide

/-- C7 (amended): a failed page fetch, missing image URL, or failed image
download produces no record for that restaurant on that attempt; an OCR
read failure is caught and recovered as empty text, and a record is still
produced; and within an attempt each restaurant is processed
independently, so one restaurant's skip leaves the remaining restaurants'
records intact. -/
theorem c7_skip_and_ocr_recovery (r : Restaurant) (env : ScrapeEnv)
    (now : Nat) (today : Date) :
    (truthy env.html = false → scrape_menu r env now today = none) ∧
    (truthy env.imageUrl = false → scrape_menu r env now today = none) ∧
    (env.imageOk = false → scrape_menu r env now today = none) ∧
    (truthy env.html = true → truthy env.imageUrl = true → env.imageOk = true →
      env.ocrRead = none →
      scrape_menu r env now today =
        some ⟨r.name, resolveMenuDate r.date_in_post env.postTitle "" now,
              is_today (resolveMenuDate r.date_in_post env.postTitle "" now) today,
              "", env.imageUrl.getD ""⟩) ∧
    (∀ rs envs,
      runAttempt (r :: rs) (env :: envs) now today =
        match scrape_menu r env now today with
        | some rec => rec :: runAttempt rs envs now today
        | none => runAttempt rs envs now today) := by
  refine ⟨?_, ?_, ?_, ?_, ?_⟩
  · intro h
    simp [scrape_menu, h]
  · intro h
    simp only [scrape_menu, h]
    split <;> simp
  · intro h
    simp only [scrape_menu, h]
    split <;> simp
  · intro h1 h2 h3 h4
    simp [scrape_menu, h1, h2, h3, h4, extract_text_from_image]
  · intro rs envs
    simp only [runAttempt, List.zip_cons_cons, List.map_cons, List.filterMap_cons]
    cases h : scrape_menu r env now today <;> simp [h]

/-- C7 witness: a failed fetch yields a skip, and an OCR failure with
everything else succeeding yields a record with empty menu text. -/
theorem c7_witness :
    scrape_menu rest3 ⟨none, some "u", true, none, some "x"⟩ 2025 ⟨2025, 2, 5⟩ = none ∧
    scrape_menu rest3 ⟨some "<h>", some "u", true, none, none⟩ 2025 ⟨2025, 2, 5⟩ =
      some ⟨rest3.name, resolveMenuDate rest3.date_in_post none "" 2025,
            is_today (resolveMenuDate rest3.date_in_post none "" 2025) ⟨2025, 2, 5⟩,
            "", (some "u").getD ""⟩ := by
  constructor
  · exact (c7_skip_and_ocr_recovery rest3 ⟨none, some "u", true, none, some "x"⟩
      2025 ⟨2025, 2, 5⟩).1 (by decide)
  · exact (c7_skip_and_ocr_recovery rest3 ⟨some "<h>", some "u", true, none, none⟩
      2025 ⟨2025, 2, 5⟩).2.2.2.1 (by decide) (by decide) (by decide) (by decide)

/-! ### C8 -/

/-- C8: `parse_date` is total (it returns an `Option`, never an
exception) and validation failures fall through: a leftmost match of a
pattern whose fields are out of calendar range sends resolution to the
next pattern in the priority list, and when no pattern matches at all the
result is absent. -/
theorem c8_validation_fallthrough (t : String) (now : Nat) :
    (∀ y m d, searchP1 t.toList = some (y, m, d) → mkDate y m d = none →
      parse_date t now = parseFrom234 t.toList now) ∧
    (∀ m d, searchP2 t.toList = some (m, d) → mkDate now m d = none →
      parseFrom234 t.toList now = parseFrom34 t.toList now) ∧
    (∀ m d, searchP3 t.toList = some (m, d) → mkDate now m d = none →
      parseFrom34 t.toList now = parseFrom4 t.toList now) ∧
    (∀ m d, searchP4 t.toList = some (m, d) → mkDate now m d = none →
      parseFrom4 t.toList now = none) ∧
    (searchP1 t.toList = none → searchP2 t.toList = none →
      searchP3 t.toList = none → searchP4 t.toList = none →
      parse_date t now = none) := by
  refine ⟨?_, ?_, ?_, ?_, ?_⟩
  · intro y m d h hmk
    exact parse_date_of_search1_invalid h hmk
  · intro m d h hmk
    exact parseFrom234_of_invalid h hmk
  · intro m d h hmk
    exact parseFrom34_of_invalid h hmk
  · intro m d h hmk
    exact parseFrom4_of_invalid h hmk
  · intro h1 h2 h3 h4
    exact parse_date_none_of_no_match h1 h2 h3 h4

/-- C8 witness: a syntactically matching but invalid full date (month 99)
falls through to the remaining patterns, and a text with no digit-based
pattern resolves to absent. -/
theorem c8_witness :
    parse_date "9999년 99월 99일" 2025 =
      parseFrom234 (String.toList "9999년 99월 99일") 2025 ∧
    parse_date "메뉴 없음" 2025 = none := by
  constructor
  · exact (c8_validation_fallthrough "9999년 99월 99일" 2025).1
      9999 99 99 (by decide) (by decide)
  · exact (c8_validation_fallthrough "메뉴 없음" 2025).2.2.2.2
      (by decide) (by decide) (by decide) (by decide)

/-! ### C9 -/

/-- C9 counterexample: the empty string and a non-empty no-date string
make `parse_date` return the very same value (`None`): the two outcomes
are not distinguishable by the return value. -/
theorem c9_counterexample :
    ("메뉴" : String) ≠ "" ∧ parse_date "메뉴" 2025 = parse_date "" 2025 := by decide

/-- C9 (amended): an absent result for a text in which no pattern matches
is the same value `none` that the empty string produces — absence is a
normal, error-free outcome, but it is not distinguishable from "text was
empty" by the return value. -/
theorem c9_absent_same_as_empty (t : String) (now : Nat)
    (h1 : searchP1 t.toList = none) (h2 : searchP2 t.toList = none)
    (h3 : searchP3 t.toList = none) (h4 : searchP4 t.toList = none) :
    parse_date t now = none ∧ parse_date t now = parse_date "" now := by
  have ht : parse_date t now = none := parse_date_none_of_no_match h1 h2 h3 h4
  have he : parse_date "" now = none :=
    parse_date_none_of_no_match rfl rfl rfl rfl
  exact ⟨ht, by rw [ht, he]⟩

/-- C9 witness: the amended statement at a concrete no-date text. -/
theorem c9_witness :
    parse_date "메뉴" 2026 = none ∧ parse_date "메뉴" 2026 = parse_date "" 2026 :=
  c9_absent_same_as_empty "메뉴" 2026 (by decide) (by decide) (by decide) (by decide)

/-! ### C10 -/

/-- C10: only the leftmost occurrence of each pattern is considered: when
the leftmost month-day match fails calendar validation, resolution moves
on to the dotted and slashed patterns and never retries the month-day
pattern on a later occurrence — even when a later occurrence
(`matchP2At` at offset `j`) would produce a calendar-valid date, the
overall result is absent. -/
theorem c10_leftmost_only (t : String) (now m d j m2 d2 : Nat)
    (h1 : searchP1 t.toList = none)
    (h2 : searchP2 t.toList = some (m, d))
    (hinv : mkDate now m d = none)
    (h3 : searchP3 t.toList = none)
    (h4 : searchP4 t.toList = none)
    (_hlater : matchP2At (t.toList.drop j) = some (m2, d2))
    (_hval : (mkDate now m2 d2).isSome = true) :
    parse_date t now = none := by
  rw [parse_date_of_search1_none h1, parseFrom234_of_invalid h2 hinv,
    parseFrom34_of_none h3, parseFrom4_of_none h4]

/-- C10 witness: the first month-day occurrence `13월 40일` is invalid,
a later valid occurrence `2월 5일` exists at offset 12, and the text
still resolves to absent. -/
theorem c10_witness : parse_date "13월 40일 그리고 2월 5일" 2025 = none :=
  c10_leftmost_only "13월 40일 그리고 2월 5일" 2025 13 40 12 2 5
    (by decide) (by decide) (by decide) (by decide) (by decide) (by decide) (by decide)

example : parse_date "2026년 02월 05일 점심메뉴" 2025 = some ⟨2026, 2, 5⟩ := by decide
example : parse_date "2월 5일 (목)" 2025 = some ⟨2025, 2, 5⟩ := by decide
example : parse_date "02.05" 2026 = some ⟨2026, 2, 5⟩ := by decide
example : parse_date "2/5" 2026 = some ⟨2026, 2, 5⟩ := by decide
example : parse_date "메뉴 없음" 2026 = none := by decide
example : parse_date "" 2026 = none := by decide
example : parse_date "13월 40일 그리고 2월 5일" 2025 = none := by decide
example : parse_date "0000년 1월 1일 2026년 2월 3일" 2025 = some ⟨2025, 1, 1⟩ := by decide
